import Mathlib

/-!
Shallow embedding of the opportunity scoring engine
(src/analyzers/price_barrier.py, brand_dominance.py, keyword_volume.py,
triangulation.py, src/decision/scoring.py, src/core/config.py,
src/core/models.py) over exact rational arithmetic, together with proofs
settling the frozen claims about it.

Conventions of the embedding:
* Python floats and ints are modelled as `ℚ` / `ℤ`; arithmetic is exact.
* Python true division raising `ZeroDivisionError` is modelled by `pydiv`
  returning `Option ℚ`; an analyzer whose code can actually reach such a
  division returns `Option AnalysisRule` (`none` = the call raises).
  Divisions that sit in branches whose guards make a zero divisor
  unreachable are modelled with total `ℚ` division.
* `None` values and absent optional fields are `Option.none`; Python
  truthiness of a numeric option (`None` and `0` are falsy) is made
  explicit where the source relies on it.
* API clients are injected collaborators; they are modelled as records of
  synchronous lookup functions.
-/

namespace Aydn

/-- Status enum from src/core/models.py (`DecisionStatus`). -/
inductive DecisionStatus where
  | RED
  | YELLOW
  | GREEN
deriving DecidableEq, Repr

/-- Marketplace enum from src/core/models.py (`Marketplace`). -/
inductive Marketplace where
  | US
  | UK
  | DE
  | FR
  | IT
  | ES
  | CA
  | JP
deriving DecidableEq, Repr

/-- The `.value` string of a marketplace member. -/
def marketplaceStr : Marketplace → String
  | .US => "US"
  | .UK => "UK"
  | .DE => "DE"
  | .FR => "FR"
  | .IT => "IT"
  | .ES => "ES"
  | .CA => "CA"
  | .JP => "JP"

/-- Values stored in the free-form `metadata` mapping of a rule result. -/
inductive MetaVal where
  | str : String → MetaVal
  | num : ℚ → MetaVal
  | intv : ℤ → MetaVal
  | boolv : Bool → MetaVal
  | noneV : MetaVal
deriving DecidableEq, Repr

/-- `AnalysisRule` from src/core/models.py: one evaluator's result. -/
structure AnalysisRule where
  rule_name : String
  status : DecisionStatus
  score : ℚ
  reason : String
  threshold_value : Option ℚ := none
  actual_value : Option ℚ := none
  metadata : List (String × MetaVal) := []
deriving DecidableEq, Repr

/-- `ProductData` from src/core/models.py, restricted to the fields the
scoring core reads (the remaining optional signals are never consulted by
the embedded functions). -/
structure ProductData where
  asin : String
  title : String
  price : ℚ
  marketplace : Marketplace := .US
  h10_monthly_revenue : Option ℚ := none
  h10_monthly_sales : Option ℤ := none
  /-- dynamic attribute accessed through `hasattr` in triangulation.py;
  an absent attribute is `none`. -/
  ss_monthly_sales : Option ℤ := none
  keepa_bsr_drops_30d : Option ℤ := none
deriving DecidableEq, Repr

/-- `KeywordData` from src/core/models.py. -/
structure KeywordData where
  keyword : String
  exact_search_volume : ℤ
  broad_search_volume : Option ℤ := none
  phrase_search_volume : Option ℤ := none
deriving DecidableEq, Repr

/-- Python true division: `none` models a `ZeroDivisionError`. -/
def pydiv (a b : ℚ) : Option ℚ :=
  if b = 0 then none else some (a / b)

/-! ### String formatting helpers

These mirror the Python f-string conversions that appear in the reason
texts.  Only values whose decimal rendering is exact are ever inspected by
the theorems below. -/

/-- Group a reversed digit list into blocks of three (for `{n:,}`). -/
def group3 (l : List Char) : List Char :=
  if h : l.length ≤ 3 then l
  else l.take 3 ++ ',' :: group3 (l.drop 3)
termination_by l.length
decreasing_by
  simp only [List.length_drop]
  omega

/-- Python `{n:,}` formatting of an integer (thousands separators). -/
def commaFmt (n : ℤ) : String :=
  let digits := (toString n.natAbs).toList
  let grouped := (group3 digits.reverse).reverse
  (if n < 0 then "-" else "") ++ String.mk grouped

/-- Rounding to the nearest integer (`⌊q + 1/2⌋`), written directly on the
numerator and denominator so that it evaluates by kernel reduction. -/
def qround (q : ℚ) : ℤ :=
  Int.fdiv (2 * q.num + q.den) (2 * q.den)

/-- Python `{x:.2f}` formatting of a value whose hundredths are exact
(all inspected occurrences are two-decimal currency amounts). -/
def fmt2 (q : ℚ) : String :=
  let c : ℤ := Int.fdiv (200 * q.num + q.den) (2 * q.den)
  let a := c.natAbs
  let f := a % 100
  (if c < 0 then "-" else "") ++ toString (a / 100) ++ "." ++
    (if f < 10 then "0" else "") ++ toString f

/-- Python `str` of a float holding an integral value (`39.0` ↦ "39.0").
Non-integral values never reach a rendered reason in the claims below;
they are rendered as an exact fraction. -/
def pyFloatStr (q : ℚ) : String :=
  if q.den = 1 then toString q.num ++ ".0"
  else toString q.num ++ "/" ++ toString q.den

/-- Python `{x:.1%}` formatting (percentage with one decimal place). -/
def fmtPct1 (q : ℚ) : String :=
  let c : ℤ := Int.fdiv (2000 * q.num + q.den) (2 * q.den)
  let a := c.natAbs
  (if c < 0 then "-" else "") ++ toString (a / 10) ++ "." ++
    toString (a % 10) ++ "%"

/-- Python `{x:.0f}` formatting (rounded to an integer). -/
def fmt0 (q : ℚ) : String :=
  toString (qround q)

/-- Substring check on exploded character lists. -/
def containsChars (needle : List Char) : List Char → Bool
  | [] => needle.isEmpty
  | c :: rest => needle.isPrefixOf (c :: rest) || containsChars needle rest

/-- `needle` occurs as a contiguous substring of `hay`. -/
def containsSub (needle hay : String) : Bool :=
  containsChars needle.toList hay.toList

/-- Python `str.lower`, written over the exploded character list. -/
def pyLower (s : String) : String :=
  String.mk (s.toList.map Char.toLower)

/-! ### Price Barrier Analyzer (src/analyzers/price_barrier.py) -/

/-- Threshold selection at the top of `PriceBarrierAnalyzer.analyze`:
US/CA use the USD floor, every other marketplace the EUR floor. -/
def applicableThreshold (min_usd min_eur : ℚ) (mp : Marketplace) : ℚ :=
  if mp = .US ∨ mp = .CA then min_usd else min_eur

/-- Currency label paired with the threshold selection. -/
def applicableCurrency (mp : Marketplace) : String :=
  if mp = .US ∨ mp = .CA then "USD" else "EUR"

/-- `PriceBarrierAnalyzer.analyze`.  The thresholds are the constructor
parameters `min_price_usd` / `min_price_eur` (config defaults 39.0).
`none` models the call raising `ZeroDivisionError`: the score expressions
of the YELLOW and of the two GREEN branches divide by the threshold. -/
def priceBarrierAnalyze (min_usd min_eur : ℚ) (product : ProductData) :
    Option AnalysisRule :=
  let price := product.price
  let threshold := applicableThreshold min_usd min_eur product.marketplace
  let currency := applicableCurrency product.marketplace
  let mkRule := fun (status : DecisionStatus) (score : ℚ) (reason : String) =>
    { rule_name := "price_barrier"
      status := status
      score := score
      reason := reason
      threshold_value := some threshold
      actual_value := some price
      metadata :=
        [("currency", MetaVal.str currency),
         ("marketplace", MetaVal.str (marketplaceStr product.marketplace)),
         ("price_to_threshold_ratio",
          MetaVal.num (if 0 < threshold then price / threshold else 0))]
      : AnalysisRule }
  if price < threshold * 0.7 then
    some (mkRule .RED 0
      ("Price $" ++ fmt2 price ++ " is severely below the $" ++
        pyFloatStr threshold ++ " barrier. " ++
        "Profit margins will be unsustainable due to Amazon fees " ++
        "(referral + FBA + storage + PPC). Expected margin erosion."))
  else if price < threshold then
    (pydiv price threshold).map fun r =>
      mkRule .YELLOW (r * 50)
        ("Price $" ++ fmt2 price ++ " is below the recommended $" ++
          pyFloatStr threshold ++ " threshold. " ++
          "Tight margins expected. Consider only if lightweight product " ++
          "with low FBA fees.")
  else if price < threshold * 1.5 then
    (pydiv (price - threshold) (threshold * 0.5)).map fun r =>
      mkRule .GREEN (50 + r * 30)
        ("Price $" ++ fmt2 price ++ " meets the barrier requirement. " ++
          "Adequate margin potential for 20-30% profit after fees.")
  else
    (pydiv (price - threshold * 1.5) threshold).map fun r =>
      mkRule .GREEN (min 100 (80 + r * 20))
        ("Price $" ++ fmt2 price ++ " is well above threshold. " ++
          "Strong profit margin potential (30%+). Excellent price point.")

/-- Score extractor on a fallible analyzer result. -/
def ruleScoreOf (o : Option AnalysisRule) : Option ℚ :=
  o.map (·.score)

/-- Status extractor on a fallible analyzer result. -/
def ruleStatusOf (o : Option AnalysisRule) : Option DecisionStatus :=
  o.map (·.status)

/-- Reason extractor on a fallible analyzer result. -/
def ruleReasonOf (o : Option AnalysisRule) : Option String :=
  o.map (·.reason)

/-- Numeric metadata lookup on a fallible analyzer result. -/
def ruleMetaNumOf (o : Option AnalysisRule) (key : String) : Option ℚ :=
  o.bind fun r =>
    match (r.metadata.filter (fun e => e.1 = key)).head? with
    | some (_, MetaVal.num q) => some q
    | _ => none

/-! ### Injected data-provider collaborators (src/api/) -/

/-- One entry of the competitor list returned by
`SellerSpriteClient.get_top_competitors`; `brand` is `comp.get("brand")`
(absent key = `none`). -/
structure Competitor where
  brand : Option String
deriving DecidableEq, Repr

/-- SellerSprite collaborator, reduced to the synchronous lookups the
scoring core performs.  Arguments are keyword, marketplace (and the
`limit` for competitors). -/
structure SSClient where
  get_click_concentration : String → String → Option ℚ
  get_top_competitors : String → String → Nat → List Competitor
  get_search_volume : String → String → Option ℤ

/-- Helium 10 collaborator, reduced to the lookups the scoring core
performs.  `keyword_search_volume` is `get_keyword_data(...)["search_volume"]`
and `get_title_density`. -/
structure H10Client where
  keyword_search_volume : String → String → Option ℤ
  get_title_density : String → String → Option ℚ

/-! ### Brand Dominance Analyzer (src/analyzers/brand_dominance.py) -/

/-- `click_concentration` lookup in `BrandDominanceAnalyzer.analyze`
(`None` without a client). -/
def ssClickConc (ss : Option SSClient) (kw mp : String) : Option ℚ :=
  match ss with
  | some c => c.get_click_concentration kw mp
  | none => none

/-- Competitor list fetched in `BrandDominanceAnalyzer.analyze`
(default `limit=10`; empty without a client). -/
def ssCompetitors (ss : Option SSClient) (kw mp : String) : List Competitor :=
  match ss with
  | some c => c.get_top_competitors kw mp 10
  | none => []

/-- The per-competitor test of the detection loop: lowercase brand
contains "amazon", or equals one of the known private-label aliases. -/
def amazonBrandHit (c : Competitor) : Bool :=
  let b := pyLower (c.brand.getD "")
  containsSub "amazon" b || b = "basics" || b = "essentials" || b = "solimo"

/-- Amazon detection over the top 3 competitor slots. -/
def amazonDetected (competitors : List Competitor) : Bool :=
  (competitors.take 3).any amazonBrandHit

/-- `top_brand_share`: share of the first competitor's brand within the
top-10 slice (computed only when the list is nonempty). -/
def topBrandShare (competitors : List Competitor) : Option ℚ :=
  match competitors with
  | [] => none
  | c0 :: _ =>
    let top10 := competitors.take 10
    let cnt := (top10.filter (fun c => c.brand = c0.brand)).length
    some ((cnt : ℚ) / (top10.length : ℚ))

/-- Python `a or b or 0.0` over two optional floats: the first value that
is neither `None` nor `0` wins, else `0`. -/
def pyOrQ (a b : Option ℚ) : ℚ :=
  match a with
  | some x => if x ≠ 0 then x else (match b with
      | some y => if y ≠ 0 then y else 0
      | none => 0)
  | none => match b with
      | some y => if y ≠ 0 then y else 0
      | none => 0

/-- `dominance_score = click_concentration or top_brand_share or 0.0`. -/
def dominanceScore (ss : Option SSClient) (kw mp : String) : ℚ :=
  pyOrQ (ssClickConc ss kw mp) (topBrandShare (ssCompetitors ss kw mp))

/-- `BrandDominanceAnalyzer.analyze`.  `dth` is the constructor parameter
`dominance_threshold` (config default 0.50). -/
def brandDominanceAnalyze (dth : ℚ) (ss : Option SSClient)
    (_product : ProductData) (kw mp : String) : AnalysisRule :=
  let cc := ssClickConc ss kw mp
  let competitors := ssCompetitors ss kw mp
  let amz := amazonDetected competitors
  let tbs := topBrandShare competitors
  let d := pyOrQ cc tbs
  let base := fun (status : DecisionStatus) (score : ℚ) (reason : String) =>
    { rule_name := "brand_dominance"
      status := status
      score := score
      reason := reason
      threshold_value := some dth
      actual_value := some d
      metadata :=
        [("click_concentration",
          match cc with | some q => MetaVal.num q | none => MetaVal.noneV),
         ("amazon_detected", MetaVal.boolv amz),
         ("top_brand_share",
          match tbs with | some q => MetaVal.num q | none => MetaVal.noneV),
         ("keyword", MetaVal.str kw),
         ("marketplace", MetaVal.str mp)]
      : AnalysisRule }
  if amz then
    base .RED 0
      ("🚨 CRITICAL: Amazon’s private label detected in top positions. " ++
        "High risk of direct competition from Amazon. " ++
        "Amazon has 400+ brands and uses seller data for product development. " ++
        "AVOID this niche.")
  else if 0.70 ≤ d then
    base .RED 10
      ("Market is highly monopolized (" ++ fmtPct1 d ++ " concentration). " ++
        "Top 3 products dominate 70%+ of traffic. " ++
        "Extremely difficult to break in. High PPC costs expected.")
  else if dth ≤ d then
    base .YELLOW 30
      ("Moderate market monopoly detected (" ++ fmtPct1 d ++
        " concentration). " ++
        "Significant competition from established brands. " ++
        "Consider only with strong differentiation strategy.")
  else if 0.40 ≤ d then
    base .YELLOW 60
      ("Market has some concentration (" ++ fmtPct1 d ++ "). " ++
        "Competitive but penetrable with good product differentiation. " ++
        "Monitor closely for Amazon’s entry.")
  else
    base .GREEN 90
      ("Low market concentration (" ++ fmtPct1 d ++ "). " ++
        "Fragmented market with no dominant player. " ++
        "Good opportunity for new entrants with quality product.")

/-! ### Keyword Volume Analyzer (src/analyzers/keyword_volume.py) -/

/-- `KeywordVolumeAnalyzer.analyze`.  `m` is the constructor parameter
`min_volume` (config default 3000).  The divisions by `m` sit in branches
whose guards are unsatisfiable when `m = 0`, so total division is a
faithful model here (the Python code never divides by zero). -/
def keywordVolumeAnalyze (m : ℤ) (kd : KeywordData) : AnalysisRule :=
  let v := kd.exact_search_volume
  let volume_ratio : ℚ := if 0 < m then (v : ℚ) / (m : ℚ) else 0
  let mkRule := fun (status : DecisionStatus) (score : ℚ) (reason : String) =>
    { rule_name := "keyword_volume"
      status := status
      score := score
      reason := reason
      threshold_value := some (m : ℚ)
      actual_value := some (v : ℚ)
      metadata :=
        [("keyword", MetaVal.str kd.keyword),
         ("volume_ratio", MetaVal.num volume_ratio),
         ("broad_volume",
          match kd.broad_search_volume with
          | some n => MetaVal.intv n | none => MetaVal.noneV),
         ("phrase_volume",
          match kd.phrase_search_volume with
          | some n => MetaVal.intv n | none => MetaVal.noneV)]
      : AnalysisRule }
  if (v : ℚ) < (m : ℚ) * 0.3 then
    mkRule .RED 0
      ("Search volume (" ++ commaFmt v ++ "/month) is critically low. " ++
        "Less than 30% of minimum threshold (" ++ commaFmt m ++ "). " ++
        "Insufficient demand to sustain profitable business. " ++
        "Consider broader keywords or different niche.")
  else if (v : ℚ) < (m : ℚ) then
    mkRule .YELLOW ((v : ℚ) / (m : ℚ) * 50)
      ("Search volume (" ++ commaFmt v ++
        "/month) is below recommended threshold (" ++ commaFmt m ++ "). " ++
        "Limited demand detected. " ++
        "Consider as part of long-tail keyword strategy if competition is low. " ++
        "May work for micro-niche with high conversion rate.")
  else if (v : ℚ) < (m : ℚ) * 2 then
    mkRule .GREEN (50 + ((v : ℚ) - (m : ℚ)) / (m : ℚ) * 30)
      ("Search volume (" ++ commaFmt v ++
        "/month) meets threshold requirements. " ++
        "Adequate demand for sustainable sales. " ++
        "Good balance of demand and competition potential.")
  else if (v : ℚ) < (m : ℚ) * 5 then
    mkRule .GREEN (80 + min 15 (((v : ℚ) - (m : ℚ) * 2) / ((m : ℚ) * 3) * 15))
      ("High search volume (" ++ commaFmt v ++ "/month). " ++
        "Strong market demand detected. " ++
        "Significant sales potential. Verify competition levels.")
  else
    mkRule .GREEN 90
      ("Very high search volume (" ++ commaFmt v ++ "/month). " ++
        "Massive market demand. " ++
        "⚠️ WARNING: Verify competition and click concentration. " ++
        "High-volume keywords often have established players.")

/-! ### Triangulation Analyzer (src/analyzers/triangulation.py) -/

/-- `statistics.mean` guarded by the caller (`if confidence_scores else 0`). -/
def listMean (l : List ℚ) : ℚ :=
  if l = [] then 0 else l.sum / (l.length : ℚ)

/-- Maximum of a nonempty value list (`max(values)`). -/
def listMax (v : ℚ) (rest : List ℚ) : ℚ :=
  rest.foldl max v

/-- Minimum of a nonempty value list (`min(values)`). -/
def listMin (v : ℚ) (rest : List ℚ) : ℚ :=
  rest.foldl min v

/-- Summary of one triangulated quantity: `source_count`, `mean` and
`variance_pct` as computed by `_triangulate_sales` /
`_triangulate_keyword_volume` (`variance = (max − min) / mean` when the
mean is positive, else 0; all three are 0 for an empty estimate list). -/
structure TriagData where
  source_count : Nat
  mean : ℚ
  variance_pct : ℚ
deriving DecidableEq, Repr

/-- Shared numeric core of the two `_triangulate_*` helpers. -/
def triangulateVals (vals : List ℚ) : TriagData :=
  match vals with
  | [] => { source_count := 0, mean := 0, variance_pct := 0 }
  | v :: rest =>
    let n := (v :: rest).length
    let m := (v :: rest).sum / (n : ℚ)
    let variance := if 0 < m then (listMax v rest - listMin v rest) / m else 0
    { source_count := n, mean := m, variance_pct := variance }

/-- Python truthiness filter on an optional integer estimate
(`if product.h10_monthly_sales:` drops both `None` and `0`). -/
def truthyInt (o : Option ℤ) : Option ℤ :=
  match o with
  | some x => if x ≠ 0 then some x else none
  | none => none

/-- Sales estimate values collected by `_triangulate_sales`, in source
order helium10, sellersprite, keepa. -/
def salesEstimates (product : ProductData) : List ℚ :=
  ((truthyInt product.h10_monthly_sales).toList ++
   (truthyInt product.ss_monthly_sales).toList ++
   (truthyInt product.keepa_bsr_drops_30d).toList).map (fun n => (n : ℚ))

/-- Keyword volume estimate values collected by
`_triangulate_keyword_volume`, in source order helium10, sellersprite. -/
def volumeEstimates (h10 : Option H10Client) (ss : Option SSClient)
    (kw mp : String) : List ℚ :=
  ((truthyInt (match h10 with
      | some c => c.keyword_search_volume kw mp
      | none => none)).toList ++
   (truthyInt (match ss with
      | some c => c.get_search_volume kw mp
      | none => none)).toList).map (fun n => (n : ℚ))

/-- Per-quantity confidence contribution of `TriangulationAnalyzer.analyze`
(`vt` is the configured `variance_threshold`): `none` when the quantity has
no estimate at all. -/
def quantConf (vt : ℚ) (t : TriagData) : Option ℚ :=
  if 2 ≤ t.source_count then
    some (if t.variance_pct ≤ vt then 100
          else if t.variance_pct ≤ vt * 2 then 70
          else 30)
  else if t.source_count = 1 then some 50
  else none

/-- Issue strings appended alongside the contributions, for one quantity
(`label` is "sales estimate" / "keyword volume" as in the source). -/
def quantIssues (vt : ℚ) (t : TriagData) (label : String) : List String :=
  if 2 ≤ t.source_count then
    if t.variance_pct ≤ vt then []
    else if t.variance_pct ≤ vt * 2 then
      ["Moderate " ++ label ++ " variance: " ++ fmtPct1 t.variance_pct]
    else
      ["High " ++ label ++ " variance: " ++ fmtPct1 t.variance_pct]
  else if t.source_count = 1 then
    ["Only one data source for " ++ label ++ "s"]
  else []

/-- `TriangulationAnalyzer.analyze`.  The competition triangulation of the
source only feeds the diagnostic metadata and is not modelled. -/
def triangulationAnalyze (vt : ℚ) (h10 : Option H10Client)
    (ss : Option SSClient) (product : ProductData) (kw mp : String) :
    AnalysisRule :=
  let sales := triangulateVals (salesEstimates product)
  let volume := triangulateVals (volumeEstimates h10 ss kw mp)
  let confidence_scores :=
    (quantConf vt sales).toList ++ (quantConf vt volume).toList
  let issues :=
    quantIssues vt sales "sales estimate" ++
    quantIssues vt volume "keyword volume"
  let overall := listMean confidence_scores
  let statusReason :=
    if 80 ≤ overall then
      (DecisionStatus.GREEN,
        "Data triangulation successful with " ++ fmt0 overall ++
          "% confidence. " ++
          "Cross-validation from " ++ toString sales.source_count ++
          " sources for sales and " ++ toString volume.source_count ++
          " sources for keywords. Data consistency verified.")
    else if 60 ≤ overall then
      (DecisionStatus.YELLOW,
        "Moderate data confidence (" ++ fmt0 overall ++ "%). " ++
          "Some variance detected between sources: " ++
          String.intercalate ", " issues ++
          ". Proceed with caution and manual verification.")
    else
      (DecisionStatus.RED,
        "Low data confidence (" ++ fmt0 overall ++ "%). " ++
          "Significant discrepancies: " ++ String.intercalate ", " issues ++
          ". Data reliability questionable. Recommend additional research.")
  { rule_name := "triangulation"
    status := statusReason.1
    score := overall
    reason := statusReason.2
    threshold_value := some vt
    actual_value := some (overall / 100)
    metadata := [] }

/-! ### Configuration (src/core/config.py) -/

/-- The numeric environment variables read by `Settings.__init__`, already
parsed (`none` = variable unset, so the default literal applies). -/
structure Env where
  price_barrier_usd : Option ℚ := none
  price_barrier_eur : Option ℚ := none
  brand_dominance_threshold : Option ℚ := none
  min_keyword_volume : Option ℤ := none
  click_concentration_threshold : Option ℚ := none
  title_density_threshold : Option ℚ := none
  weight_price_barrier : Option ℚ := none
  weight_brand_dominance : Option ℚ := none
  weight_keyword_volume : Option ℚ := none
  weight_review_velocity : Option ℚ := none
  weight_title_density : Option ℚ := none
  weight_triangulation : Option ℚ := none
  green_threshold : Option ℚ := none
  yellow_threshold : Option ℚ := none

/-- The analysis fields of `Settings`. -/
structure Settings where
  price_barrier_usd : ℚ
  price_barrier_eur : ℚ
  brand_dominance_threshold : ℚ
  min_keyword_volume : ℤ
  click_concentration_threshold : ℚ
  title_density_threshold : ℚ
  weight_price_barrier : ℚ
  weight_brand_dominance : ℚ
  weight_keyword_volume : ℚ
  weight_review_velocity : ℚ
  weight_title_density : ℚ
  weight_triangulation : ℚ
  green_threshold : ℚ
  yellow_threshold : ℚ
deriving DecidableEq, Repr

/-- Body of `Settings.__init__`: every field is the environment value or
the hard-coded default.  No range or consistency check occurs. -/
def mkSettings (env : Env) : Settings :=
  { price_barrier_usd := env.price_barrier_usd.getD 39
    price_barrier_eur := env.price_barrier_eur.getD 39
    brand_dominance_threshold := env.brand_dominance_threshold.getD 0.50
    min_keyword_volume := env.min_keyword_volume.getD 3000
    click_concentration_threshold :=
      env.click_concentration_threshold.getD 0.60
    title_density_threshold := env.title_density_threshold.getD 5.0
    weight_price_barrier := env.weight_price_barrier.getD 0.25
    weight_brand_dominance := env.weight_brand_dominance.getD 0.25
    weight_keyword_volume := env.weight_keyword_volume.getD 0.20
    weight_review_velocity := env.weight_review_velocity.getD 0.10
    weight_title_density := env.weight_title_density.getD 0.10
    weight_triangulation := env.weight_triangulation.getD 0.10
    green_threshold := env.green_threshold.getD 70.0
    yellow_threshold := env.yellow_threshold.getD 40.0 }

/-- Configuration load (`settings = Settings()` at import time).  For
numeric environment values the constructor has no failure path: it
performs no validation, so the load always succeeds. -/
def loadSettings (env : Env) : Except String Settings :=
  Except.ok (mkSettings env)

/-- Settings produced from an empty environment (all defaults). -/
def defaultSettings : Settings :=
  mkSettings {}

/-! ### Scoring Engine (src/decision/scoring.py) -/

/-- `ScoringEngine._calculate_weighted_score`: weighted sum over the four
mandatory results plus the optional ones that ran, clamped to [0, 100]. -/
def calculateWeightedScore (s : Settings)
    (price_check brand_check keyword_check triangulation_check : AnalysisRule)
    (review_check title_density_check : Option AnalysisRule) : ℚ :=
  let base :=
    price_check.score * s.weight_price_barrier +
    brand_check.score * s.weight_brand_dominance +
    keyword_check.score * s.weight_keyword_volume +
    triangulation_check.score * s.weight_triangulation
  let withReview :=
    match review_check with
    | some r => base + r.score * s.weight_review_velocity
    | none => base
  let total :=
    match title_density_check with
    | some r => withReview + r.score * s.weight_title_density
    | none => withReview
  min 100 (max 0 total)

/-- `ScoringEngine._determine_final_decision`: kill-switch precedence over
the score bands.  The triangulation result is received but not consulted. -/
def determineFinalDecision (s : Settings) (overall_score : ℚ)
    (price_check brand_check keyword_check _triangulation_check :
      AnalysisRule) : DecisionStatus :=
  if price_check.status = .RED then .RED
  else if brand_check.status = .RED then .RED
  else if keyword_check.status = .RED then .RED
  else if s.green_threshold ≤ overall_score then .GREEN
  else if s.yellow_threshold ≤ overall_score then .YELLOW
  else .RED

/-- `ScoringEngine._analyze_review_velocity`: stubbed in the source, always
`None`. -/
def analyzeReviewVelocity (_product : ProductData) (_mp : String) :
    Option AnalysisRule :=
  none

/-- `ScoringEngine._analyze_title_density`. -/
def analyzeTitleDensity (h10 : Option H10Client) (kw mp : String) :
    Option AnalysisRule :=
  match h10 with
  | none => none
  | some c =>
    match c.get_title_density kw mp with
    | none => none
    | some density =>
      let sr :=
        if density < 5 then
          (DecisionStatus.GREEN, (100 : ℚ),
            "Low title density (" ++ pyFloatStr density ++
              "). Great SEO opportunity.")
        else if density < 7 then
          (DecisionStatus.YELLOW, (60 : ℚ),
            "Medium title density (" ++ pyFloatStr density ++
              "). Competitive but manageable.")
        else
          (DecisionStatus.RED, (20 : ℚ),
            "High title density (" ++ pyFloatStr density ++
              "). Very competitive keyword.")
      some
        { rule_name := "title_density"
          status := sr.1
          score := sr.2.1
          reason := sr.2.2
          threshold_value := some 5.0
          actual_value := some density
          metadata := [] }

/-- `ScoringEngine._analyze_click_concentration`: returns `None` without a
SellerSprite client, `None` when the concentration lookup is `None`, and
`None` again in the remaining branch ("Already handled in brand_dominance,
this is supplementary"). -/
def analyzeClickConcentration (ss : Option SSClient) (kw mp : String) :
    Option AnalysisRule :=
  match ss with
  | none => none
  | some c =>
    match c.get_click_concentration kw mp with
    | none => none
    | some _ => none

/-! ### Derived closed forms used by the proofs -/

/-- Closed form of the price-barrier score as a function of the applicable
threshold and the price (proved equal to the analyzer's score below). -/
def pbScoreFun (t p : ℚ) : ℚ :=
  if p < t * 0.7 then 0
  else if p < t then p / t * 50
  else if p < t * 1.5 then 50 + (p - t) / (t * 0.5) * 30
  else min 100 (80 + (p - t * 1.5) / t * 20)

/-- Closed form of the price-barrier status. -/
def pbStatusFun (t p : ℚ) : DecisionStatus :=
  if p < t * 0.7 then .RED
  else if p < t then .YELLOW
  else .GREEN

/-- Closed form of the keyword-volume score as a function of the minimum
volume and the volume (proved equal to the analyzer's score below). -/
def kvScoreFun (m v : ℚ) : ℚ :=
  if v < m * 0.3 then 0
  else if v < m then v / m * 50
  else if v < m * 2 then 50 + (v - m) / m * 30
  else if v < m * 5 then 80 + min 15 ((v - m * 2) / (m * 3) * 15)
  else 90

/-! ### Concrete instances used by witnesses and counterexamples -/

/-- Product at $25 on the US marketplace (concrete scenario 1). -/
def prodPrice25 : ProductData :=
  { asin := "TEST001", title := "Test Product", price := 25,
    marketplace := .US }

/-- Product at $49 on the US marketplace (concrete scenario 2). -/
def prodPrice49 : ProductData :=
  { asin := "TEST002", title := "Test Product", price := 49,
    marketplace := .US }

/-- Product at $10 on the US marketplace. -/
def prodPrice10 : ProductData :=
  { asin := "TEST003", title := "Test Product", price := 10,
    marketplace := .US }

/-- Product at $100 on the US marketplace. -/
def prodPrice100 : ProductData :=
  { asin := "TEST004", title := "Test Product", price := 100,
    marketplace := .US }

/-- Keyword with exact volume 500 (concrete scenario 3). -/
def kwVol500 : KeywordData :=
  { keyword := "test keyword", exact_search_volume := 500 }

/-- Keyword with exact volume 16000 (very-high-volume band). -/
def kwVol16000 : KeywordData :=
  { keyword := "test keyword", exact_search_volume := 16000 }

/-- Product carrying two sales estimates 1000 and 1100 (concrete
scenario 4). -/
def prodTwoSales : ProductData :=
  { asin := "TEST005", title := "Test Product", price := 49,
    marketplace := .US, h10_monthly_sales := some 1000,
    ss_monthly_sales := some 1100 }

/-- SellerSprite collaborator reporting a click concentration of exactly 0
together with ten competitors of one and the same brand. -/
def ssZeroConc : SSClient :=
  { get_click_concentration := fun _ _ => some 0
    get_top_competitors := fun _ _ _ =>
      List.replicate 10 { brand := some "brandx" }
    get_search_volume := fun _ _ => none }

/-- SellerSprite collaborator whose top competitor is an Amazon
private-label brand. -/
def ssAmazonTop : SSClient :=
  { get_click_concentration := fun _ _ => some 0.2
    get_top_competitors := fun _ _ _ =>
      [{ brand := some "AmazonBasics" }, { brand := some "OtherBrand" }]
    get_search_volume := fun _ _ => none }

/-- SellerSprite collaborator reporting a click concentration of 0.55 and
no competitor list. -/
def ssConc55 : SSClient :=
  { get_click_concentration := fun _ _ => some 0.55
    get_top_competitors := fun _ _ _ => []
    get_search_volume := fun _ _ => none }

/-- Fixture rule result with status GREEN and score 90. -/
def ruleGreen90 : AnalysisRule :=
  { rule_name := "fixture", status := .GREEN, score := 90, reason := "ok" }

/-- Fixture rule result with status RED and score 0. -/
def ruleRed0 : AnalysisRule :=
  { rule_name := "fixture", status := .RED, score := 0, reason := "bad" }

/-- Environment holding a structurally invalid configuration: a negative
scoring weight and decision bands with yellow above green. -/
def badEnv : Env :=
  { weight_price_barrier := some (-0.25), yellow_threshold := some 80 }

/-! ## Lemmas about the price-barrier analyzer -/

/-- With a nonzero applicable threshold the analyzer never raises and its
score is the closed-form piecewise curve. -/
theorem priceBarrier_score_eq (tu te : ℚ) (p : ProductData)
    (ht : applicableThreshold tu te p.marketplace ≠ 0) :
    ruleScoreOf (priceBarrierAnalyze tu te p) =
      some (pbScoreFun (applicableThreshold tu te p.marketplace) p.price) := by
  have ht2 : applicableThreshold tu te p.marketplace * 0.5 ≠ 0 :=
    mul_ne_zero ht (by norm_num)
  simp only [priceBarrierAnalyze, pbScoreFun, ruleScoreOf, pydiv]
  split_ifs <;> simp

/-- With a nonzero applicable threshold the analyzer's status is the
closed-form piecewise status. -/
theorem priceBarrier_status_eq (tu te : ℚ) (p : ProductData)
    (ht : applicableThreshold tu te p.marketplace ≠ 0) :
    ruleStatusOf (priceBarrierAnalyze tu te p) =
      some (pbStatusFun (applicableThreshold tu te p.marketplace) p.price) := by
  have ht2 : applicableThreshold tu te p.marketplace * 0.5 ≠ 0 :=
    mul_ne_zero ht (by norm_num)
  simp only [priceBarrierAnalyze, pbStatusFun, ruleStatusOf, pydiv]
  split_ifs <;> simp


/-- In the severe-undershoot branch the rendered reason is the literal
RED-branch text of the source. -/
theorem priceBarrier_reason_red (tu te : ℚ) (p : ProductData)
    (h : p.price < applicableThreshold tu te p.marketplace * 0.7) :
    ruleReasonOf (priceBarrierAnalyze tu te p) =
      some ("Price $" ++ fmt2 p.price ++ " is severely below the $" ++
        pyFloatStr (applicableThreshold tu te p.marketplace) ++ " barrier. " ++
        "Profit margins will be unsustainable due to Amazon fees " ++
        "(referral + FBA + storage + PPC). Expected margin erosion.") := by
  simp only [priceBarrierAnalyze, ruleReasonOf]
  rw [if_pos h]
  simp

/-! ## Claim C3 -/

/-- C3 (amended): for every product with price `p` and positive applicable
threshold `t`, the price-barrier evaluator returns score 0 / RED when
`p < 0.7t`, score `(p/t)·50` / YELLOW when `0.7t ≤ p < t`, score
`50 + ((p−t)/(0.5t))·30` / GREEN when `t ≤ p < 1.5t`, and score
`min(100, 80 + ((p−1.5t)/t)·20)` / GREEN when `p ≥ 1.5t`.  Price $25
against threshold $39 yields score 0 / RED with a reason mentioning
"below the $39.0 barrier" (amended from "below the $39 barrier": the
threshold is a Python float and renders as "39.0"), and price $49 against
threshold $39 yields score 850/13 ∈ [50, 80) with status GREEN. -/
theorem C3_price_barrier_curve :
    (∀ (tu te : ℚ) (p : ProductData),
      0 < applicableThreshold tu te p.marketplace →
      ((p.price < 0.7 * applicableThreshold tu te p.marketplace →
         ruleScoreOf (priceBarrierAnalyze tu te p) = some 0 ∧
         ruleStatusOf (priceBarrierAnalyze tu te p) = some .RED) ∧
       (0.7 * applicableThreshold tu te p.marketplace ≤ p.price →
        p.price < applicableThreshold tu te p.marketplace →
         ruleScoreOf (priceBarrierAnalyze tu te p) =
           some (p.price / applicableThreshold tu te p.marketplace * 50) ∧
         ruleStatusOf (priceBarrierAnalyze tu te p) = some .YELLOW) ∧
       (applicableThreshold tu te p.marketplace ≤ p.price →
        p.price < 1.5 * applicableThreshold tu te p.marketplace →
         ruleScoreOf (priceBarrierAnalyze tu te p) =
           some (50 + (p.price - applicableThreshold tu te p.marketplace) /
             (0.5 * applicableThreshold tu te p.marketplace) * 30) ∧
         ruleStatusOf (priceBarrierAnalyze tu te p) = some .GREEN) ∧
       (1.5 * applicableThreshold tu te p.marketplace ≤ p.price →
         ruleScoreOf (priceBarrierAnalyze tu te p) =
           some (min 100
             (80 + (p.price - 1.5 * applicableThreshold tu te p.marketplace) /
               applicableThreshold tu te p.marketplace * 20)) ∧
         ruleStatusOf (priceBarrierAnalyze tu te p) = some .GREEN))) ∧
    ruleScoreOf (priceBarrierAnalyze 39 39 prodPrice25) = some 0 ∧
    ruleStatusOf (priceBarrierAnalyze 39 39 prodPrice25) = some .RED ∧
    (ruleReasonOf (priceBarrierAnalyze 39 39 prodPrice25)).map
      (containsSub "below the $39.0 barrier") = some true ∧
    ruleScoreOf (priceBarrierAnalyze 39 39 prodPrice49) = some (850 / 13) ∧
    (50 : ℚ) ≤ 850 / 13 ∧ (850 : ℚ) / 13 < 80 ∧
    ruleStatusOf (priceBarrierAnalyze 39 39 prodPrice49) = some .GREEN := by
  have hgen : ∀ (tu te : ℚ) (p : ProductData),
      0 < applicableThreshold tu te p.marketplace →
      ((p.price < 0.7 * applicableThreshold tu te p.marketplace →
         ruleScoreOf (priceBarrierAnalyze tu te p) = some 0 ∧
         ruleStatusOf (priceBarrierAnalyze tu te p) = some .RED) ∧
       (0.7 * applicableThreshold tu te p.marketplace ≤ p.price →
        p.price < applicableThreshold tu te p.marketplace →
         ruleScoreOf (priceBarrierAnalyze tu te p) =
           some (p.price / applicableThreshold tu te p.marketplace * 50) ∧
         ruleStatusOf (priceBarrierAnalyze tu te p) = some .YELLOW) ∧
       (applicableThreshold tu te p.marketplace ≤ p.price →
        p.price < 1.5 * applicableThreshold tu te p.marketplace →
         ruleScoreOf (priceBarrierAnalyze tu te p) =
           some (50 + (p.price - applicableThreshold tu te p.marketplace) /
             (0.5 * applicableThreshold tu te p.marketplace) * 30) ∧
         ruleStatusOf (priceBarrierAnalyze tu te p) = some .GREEN) ∧
       (1.5 * applicableThreshold tu te p.marketplace ≤ p.price →
         ruleScoreOf (priceBarrierAnalyze tu te p) =
           some (min 100
             (80 + (p.price - 1.5 * applicableThreshold tu te p.marketplace) /
               applicableThreshold tu te p.marketplace * 20)) ∧
         ruleStatusOf (priceBarrierAnalyze tu te p) = some .GREEN)) := by
    intro tu te p ht0
    have ht : applicableThreshold tu te p.marketplace ≠ 0 := ne_of_gt ht0
    have hs := priceBarrier_score_eq tu te p ht
    have hst := priceBarrier_status_eq tu te p ht
    set t := applicableThreshold tu te p.marketplace with hT
    refine ⟨?_, ?_, ?_, ?_⟩
    · intro h1
      have h1' : p.price < t * 0.7 := by linarith
      rw [hs, hst, pbScoreFun, pbStatusFun, if_pos h1', if_pos h1']
      exact ⟨rfl, rfl⟩
    · intro h1 h2
      have h1' : ¬ p.price < t * 0.7 := by push_neg; linarith
      rw [hs, hst, pbScoreFun, pbStatusFun, if_neg h1', if_neg h1',
        if_pos h2, if_pos h2]
      exact ⟨rfl, rfl⟩
    · intro h1 h2
      have h1' : ¬ p.price < t * 0.7 := by push_neg; linarith
      have h2' : ¬ p.price < t := not_lt.2 h1
      have h3' : p.price < t * 1.5 := by linarith
      rw [hs, hst, pbScoreFun, pbStatusFun, if_neg h1', if_neg h1',
        if_neg h2', if_neg h2', if_pos h3']
      refine ⟨?_, rfl⟩
      rw [mul_comm t 0.5]
    · intro h1
      have h1' : ¬ p.price < t * 0.7 := by push_neg; linarith
      have h2' : ¬ p.price < t := by push_neg; linarith
      have h3' : ¬ p.price < t * 1.5 := by push_neg; linarith
      rw [hs, hst, pbScoreFun, pbStatusFun, if_neg h1', if_neg h1',
        if_neg h2', if_neg h2', if_neg h3']
      refine ⟨?_, rfl⟩
      rw [mul_comm t 1.5]
  have hth25 : applicableThreshold 39 39 prodPrice25.marketplace = 39 := by
    simp [applicableThreshold, prodPrice25]
  have hth49 : applicableThreshold 39 39 prodPrice49.marketplace = 39 := by
    simp [applicableThreshold, prodPrice49]
  have hs1 := (hgen 39 39 prodPrice25 (by rw [hth25]; norm_num)).1
    (by rw [hth25]; show (25:ℚ) < 0.7 * 39; norm_num)
  have hs2 := (hgen 39 39 prodPrice49 (by rw [hth49]; norm_num)).2.2.1
    (by rw [hth49]; show (39:ℚ) ≤ 49; norm_num)
    (by rw [hth49]; show (49:ℚ) < 1.5 * 39; norm_num)
  have hreason := priceBarrier_reason_red 39 39 prodPrice25
    (by rw [hth25]; show (25:ℚ) < 39 * 0.7; norm_num)
  refine ⟨hgen, hs1.1, hs1.2, ?_, ?_, by norm_num, by norm_num, hs2.2⟩
  · rw [hreason, hth25]
    have h1 : fmt2 prodPrice25.price = "25.00" := by decide
    have h2 : pyFloatStr 39 = "39.0" := by decide
    rw [h1, h2]
    decide
  · rw [hs2.1, hth49]
    norm_num [prodPrice49]

/-- C3 counterexample to the claim as frozen: for price $25 against the
configured float threshold 39.0, the rendered reason reads
"... severely below the $39.0 barrier ..." and therefore does not contain
the claimed substring "below the $39 barrier". -/
theorem C3_reason_counterexample :
    (ruleReasonOf (priceBarrierAnalyze 39 39 prodPrice25)).map
      (containsSub "below the $39 barrier") = some false := by
  have hth25 : applicableThreshold 39 39 prodPrice25.marketplace = 39 := by
    simp [applicableThreshold, prodPrice25]
  have hreason := priceBarrier_reason_red 39 39 prodPrice25
    (by rw [hth25]; show (25:ℚ) < 39 * 0.7; norm_num)
  rw [hreason, hth25]
  have h1 : fmt2 prodPrice25.price = "25.00" := by decide
  have h2 : pyFloatStr 39 = "39.0" := by decide
  rw [h1, h2]
  decide

/-- C3 witness: the amended theorem applied at threshold 39 and price 10
(first band). -/
theorem C3_witness :
    ruleScoreOf (priceBarrierAnalyze 39 39 prodPrice10) = some 0 ∧
    ruleStatusOf (priceBarrierAnalyze 39 39 prodPrice10) = some .RED :=
  (C3_price_barrier_curve.1 39 39 prodPrice10
      (by simp [applicableThreshold, prodPrice10])).1
    (by simp only [applicableThreshold, prodPrice10]; norm_num)

/-! ## Claim C8 -/

/-- For a positive threshold the closed-form price-barrier score is
non-decreasing in the price. -/
theorem pbScoreFun_mono (t : ℚ) (ht : 0 < t) :
    ∀ p1 p2 : ℚ, p1 ≤ p2 → pbScoreFun t p1 ≤ pbScoreFun t p2 := by
  intro p1 p2 hp
  have ht5 : 0 < t * 0.5 := by linarith
  unfold pbScoreFun
  split_ifs with a1 a2 a3 b1 b2 b3 b4 b5 b6 b7 b8 b9 b10 b11 b12
  all_goals try linarith
  -- (1,2): 0 ≤ p2/t·50
  case _ =>
    have h2 : (0:ℚ) < p2 := by linarith
    positivity
  -- (1,3): 0 ≤ 50 + (p2−t)/(t·0.5)·30
  case _ =>
    have h0 : (0:ℚ) ≤ (p2 - t) / (t * 0.5) :=
      div_nonneg (by linarith) (by linarith)
    linarith
  -- (1,4): 0 ≤ min 100 (80 + (p2−t·1.5)/t·20)
  case _ =>
    have h0 : (0:ℚ) ≤ (p2 - t * 1.5) / t :=
      div_nonneg (by linarith) (by linarith)
    have := le_min (by norm_num : (0:ℚ) ≤ 100) (by linarith : (0:ℚ) ≤ 80 + (p2 - t * 1.5) / t * 20)
    exact this
  -- (2,2): p1/t·50 ≤ p2/t·50
  case _ =>
    gcongr
  -- (2,3): p1/t·50 ≤ 50 + (p2−t)/(t·0.5)·30
  case _ =>
    have hl : p1 / t < 1 := (div_lt_one ht).2 (by assumption)
    have h0 : (0:ℚ) ≤ (p2 - t) / (t * 0.5) :=
      div_nonneg (by linarith) (by linarith)
    nlinarith
  -- (2,4): p1/t·50 ≤ min 100 (80 + (p2−t·1.5)/t·20)
  case _ =>
    have hl : p1 / t < 1 := (div_lt_one ht).2 (by assumption)
    have h0 : (0:ℚ) ≤ (p2 - t * 1.5) / t :=
      div_nonneg (by linarith) (by linarith)
    refine le_min (by nlinarith) (by nlinarith)
  -- (3,3): monotone inside the third band
  case _ =>
    gcongr
  -- (3,4): third band stays below 80, fourth band stays at or above 80
  case _ =>
    have hl : (p1 - t) / (t * 0.5) < 1 := (div_lt_one ht5).2 (by linarith)
    have h0 : (0:ℚ) ≤ (p2 - t * 1.5) / t :=
      div_nonneg (by linarith) (by linarith)
    refine le_min (by nlinarith) (by nlinarith)
  -- (4,4): min is monotone in its second argument
  case _ =>
    have hinner : (p1 - t * 1.5) / t ≤ (p2 - t * 1.5) / t := by gcongr
    exact min_le_min le_rfl (by linarith)

/-- C8: for every pair of products that differ only in price (same
marketplace, hence the same fixed positive applicable threshold), the
price-barrier score is non-decreasing in the price. -/
theorem C8_price_barrier_monotone :
    ∀ (tu te : ℚ) (a b : ProductData),
      a.marketplace = b.marketplace →
      0 < applicableThreshold tu te a.marketplace →
      a.price ≤ b.price →
      ∀ qa ∈ ruleScoreOf (priceBarrierAnalyze tu te a),
      ∀ qb ∈ ruleScoreOf (priceBarrierAnalyze tu te b), qa ≤ qb := by
  intro tu te a b hmp ht hp qa ha qb hb
  have htb : 0 < applicableThreshold tu te b.marketplace := hmp ▸ ht
  rw [priceBarrier_score_eq tu te a (ne_of_gt ht)] at ha
  rw [priceBarrier_score_eq tu te b (ne_of_gt htb)] at hb
  have ea : qa = pbScoreFun (applicableThreshold tu te a.marketplace) a.price :=
    (Option.mem_some_iff.mp ha).symm
  have eb : qb = pbScoreFun (applicableThreshold tu te b.marketplace) b.price :=
    (Option.mem_some_iff.mp hb).symm
  rw [ea, eb, ← hmp]
  exact pbScoreFun_mono _ ht a.price b.price hp

/-- C8 witness: the theorem applied to the $10 and $49 products on the US
marketplace with threshold 39. -/
theorem C8_witness :
    ruleScoreOf (priceBarrierAnalyze 39 39 prodPrice10) = some 0 ∧
    ruleScoreOf (priceBarrierAnalyze 39 39 prodPrice49) = some (850 / 13) ∧
    (0 : ℚ) ≤ 850 / 13 := by
  have hth : applicableThreshold 39 39 prodPrice10.marketplace = 39 := by
    simp [applicableThreshold, prodPrice10]
  have h1 : ruleScoreOf (priceBarrierAnalyze 39 39 prodPrice10) = some 0 := by
    rw [priceBarrier_score_eq 39 39 prodPrice10 (by rw [hth]; norm_num), hth]
    norm_num [pbScoreFun, prodPrice10]
  have hth49 : applicableThreshold 39 39 prodPrice49.marketplace = 39 := by
    simp [applicableThreshold, prodPrice49]
  have h2 : ruleScoreOf (priceBarrierAnalyze 39 39 prodPrice49) =
      some (850 / 13) := by
    rw [priceBarrier_score_eq 39 39 prodPrice49 (by rw [hth49]; norm_num), hth49]
    norm_num [pbScoreFun, prodPrice49]
  exact ⟨h1, h2,
    C8_price_barrier_monotone 39 39 prodPrice10 prodPrice49 rfl
      (by rw [hth]; norm_num) (by norm_num [prodPrice10, prodPrice49])
      0 (Option.mem_def.mpr h1) (850 / 13) (Option.mem_def.mpr h2)⟩

/-! ## Claim C6 -/

/-- For a positive threshold the closed-form price-barrier score stays
inside [0, 100]. -/
theorem pbScoreFun_bounds (t : ℚ) (ht : 0 < t) :
    ∀ p : ℚ, 0 ≤ pbScoreFun t p ∧ pbScoreFun t p ≤ 100 := by
  intro p
  have ht5 : 0 < t * 0.5 := by linarith
  unfold pbScoreFun
  split_ifs with h1 h2 h3
  · norm_num
  · rw [not_lt] at h1
    have hp : (0:ℚ) < p := by linarith
    have hlt : p / t < 1 := (div_lt_one ht).2 h2
    constructor
    · positivity
    · nlinarith
  · rw [not_lt] at h1 h2
    have h0 : (0:ℚ) ≤ (p - t) / (t * 0.5) :=
      div_nonneg (by linarith) (by linarith)
    have hlt : (p - t) / (t * 0.5) < 1 := (div_lt_one ht5).2 (by linarith)
    constructor
    · linarith
    · nlinarith
  · rw [not_lt] at h1 h2 h3
    have h0 : (0:ℚ) ≤ (p - t * 1.5) / t :=
      div_nonneg (by linarith) (by linarith)
    exact ⟨le_min (by norm_num) (by linarith), min_le_left _ _⟩

/-- The keyword-volume analyzer's score is the closed-form piecewise
curve. -/
theorem keywordVolume_score_eq (m : ℤ) (kd : KeywordData) :
    (keywordVolumeAnalyze m kd).score =
      kvScoreFun (m : ℚ) (kd.exact_search_volume : ℚ) := by
  unfold keywordVolumeAnalyze kvScoreFun
  simp only [apply_ite (fun r : AnalysisRule => r.score)]

/-- The closed-form keyword-volume score is always inside [0, 100]: every
band value is bounded, and the bands that divide by the configured minimum
are only reachable when that minimum is positive. -/
theorem kvScoreFun_bounds (m v : ℚ) :
    0 ≤ kvScoreFun m v ∧ kvScoreFun m v ≤ 100 := by
  unfold kvScoreFun
  split_ifs with h1 h2 h3 h4
  · norm_num
  · rw [not_lt] at h1
    have hm : (0:ℚ) < m := by linarith
    have hv : (0:ℚ) < v := by linarith
    have hlt : v / m < 1 := (div_lt_one hm).2 h2
    constructor
    · positivity
    · nlinarith
  · rw [not_lt] at h1 h2
    have hm : (0:ℚ) < m := by linarith
    have h0 : (0:ℚ) ≤ (v - m) / m := div_nonneg (by linarith) (by linarith)
    have hlt : (v - m) / m < 1 := (div_lt_one hm).2 (by linarith)
    constructor
    · linarith
    · nlinarith
  · rw [not_lt] at h1 h2 h3
    have hm : (0:ℚ) < m := by linarith
    have hm3 : (0:ℚ) < m * 3 := by linarith
    have h0 : (0:ℚ) ≤ (v - m * 2) / (m * 3) :=
      div_nonneg (by linarith) (by linarith)
    have hle : min 15 ((v - m * 2) / (m * 3) * 15) ≤ 15 := min_le_left _ _
    have hge : (0:ℚ) ≤ min 15 ((v - m * 2) / (m * 3) * 15) :=
      le_min (by norm_num) (by nlinarith)
    constructor
    · linarith
    · linarith
  · norm_num

/-- The keyword-volume score is always inside [0, 100]. -/
theorem keywordVolume_score_bounds (m : ℤ) (kd : KeywordData) :
    0 ≤ (keywordVolumeAnalyze m kd).score ∧
    (keywordVolumeAnalyze m kd).score ≤ 100 := by
  rw [keywordVolume_score_eq]
  exact kvScoreFun_bounds _ _

/-- The brand-dominance score is one of 0, 10, 30, 60, 90. -/
theorem brandDominance_score_bounds (dth : ℚ) (ss : Option SSClient)
    (p : ProductData) (kw mp : String) :
    0 ≤ (brandDominanceAnalyze dth ss p kw mp).score ∧
    (brandDominanceAnalyze dth ss p kw mp).score ≤ 100 := by
  simp only [brandDominanceAnalyze]
  split_ifs <;> norm_num

/-- Each per-quantity triangulation contribution lies inside [30, 100]. -/
theorem quantConf_bounds (vt : ℚ) (t : TriagData) :
    ∀ c ∈ quantConf vt t, 30 ≤ c ∧ c ≤ 100 := by
  intro c hc
  unfold quantConf at hc
  split_ifs at hc <;>
    first
      | (rw [Option.mem_some_iff] at hc; subst hc; norm_num)
      | simp at hc

/-- The mean of a list of values inside [30, 100] lies inside [0, 100]
(and is 0 for the empty list). -/
theorem listMean_bounds (l : List ℚ) (h : ∀ x ∈ l, 30 ≤ x ∧ x ≤ 100) :
    0 ≤ listMean l ∧ listMean l ≤ 100 := by
  unfold listMean
  split_ifs with hl
  · norm_num
  · have hlen : 0 < (l.length : ℚ) := by
      have : l.length ≠ 0 := fun h0 => hl (List.length_eq_zero.mp h0)
      exact_mod_cast Nat.pos_of_ne_zero this
    constructor
    · exact div_nonneg
        (List.sum_nonneg fun x hx => by linarith [(h x hx).1]) (le_of_lt hlen)
    · rw [div_le_iff hlen]
      calc l.sum ≤ l.length • (100:ℚ) :=
            List.sum_le_card_nsmul l 100 (fun x hx => (h x hx).2)
        _ = (l.length:ℚ) * 100 := by rw [nsmul_eq_mul]
        _ = 100 * (l.length:ℚ) := by ring
      
/-- The triangulation score is always inside [0, 100]. -/
theorem triangulation_score_bounds (vt : ℚ) (h10 : Option H10Client)
    (ss : Option SSClient) (p : ProductData) (kw mp : String) :
    0 ≤ (triangulationAnalyze vt h10 ss p kw mp).score ∧
    (triangulationAnalyze vt h10 ss p kw mp).score ≤ 100 := by
  unfold triangulationAnalyze
  dsimp only
  apply listMean_bounds
  intro x hx
  rcases List.mem_append.mp hx with hx1 | hx1
  · exact quantConf_bounds _ _ x (Option.mem_toList.mp hx1)
  · exact quantConf_bounds _ _ x (Option.mem_toList.mp hx1)

/-- The optional title-density evaluator only emits scores 100, 60, 20. -/
theorem titleDensity_score_bounds (h10 : Option H10Client) (kw mp : String) :
    ∀ r ∈ analyzeTitleDensity h10 kw mp, 0 ≤ r.score ∧ r.score ≤ 100 := by
  intro r hr
  unfold analyzeTitleDensity at hr
  rcases h10 with _ | c
  · simp at hr
  · dsimp only at hr
    rcases hd : c.get_title_density kw mp with _ | d
    · rw [hd] at hr; simp at hr
    · rw [hd] at hr
      dsimp only at hr
      split_ifs at hr <;> rw [Option.mem_some_iff] at hr <;> subst hr <;>
        norm_num

/-- C6 (amended): scores stay inside [0, 100] for the brand-dominance,
keyword-volume, triangulation and title-density evaluators on all inputs,
and for the price-barrier evaluator whenever its applicable threshold is
positive.  (With a non-positive threshold the price-barrier score can
leave the range, see the counterexample.) -/
theorem C6_score_bounds :
    (∀ (tu te : ℚ) (p : ProductData),
      0 < applicableThreshold tu te p.marketplace →
      ∀ q ∈ ruleScoreOf (priceBarrierAnalyze tu te p), 0 ≤ q ∧ q ≤ 100) ∧
    (∀ (dth : ℚ) (ss : Option SSClient) (p : ProductData) (kw mp : String),
      0 ≤ (brandDominanceAnalyze dth ss p kw mp).score ∧
      (brandDominanceAnalyze dth ss p kw mp).score ≤ 100) ∧
    (∀ (m : ℤ) (kd : KeywordData),
      0 ≤ (keywordVolumeAnalyze m kd).score ∧
      (keywordVolumeAnalyze m kd).score ≤ 100) ∧
    (∀ (vt : ℚ) (h10 : Option H10Client) (ss : Option SSClient)
        (p : ProductData) (kw mp : String),
      0 ≤ (triangulationAnalyze vt h10 ss p kw mp).score ∧
      (triangulationAnalyze vt h10 ss p kw mp).score ≤ 100) ∧
    (∀ (h10 : Option H10Client) (kw mp : String),
      ∀ r ∈ analyzeTitleDensity h10 kw mp, 0 ≤ r.score ∧ r.score ≤ 100) := by
  refine ⟨?_, brandDominance_score_bounds, keywordVolume_score_bounds,
    triangulation_score_bounds, titleDensity_score_bounds⟩
  intro tu te p ht q hq
  rw [priceBarrier_score_eq tu te p (ne_of_gt ht)] at hq
  simp only [Option.mem_some_iff] at hq
  subst hq
  exact pbScoreFun_bounds _ ht _

/-- C6 counterexample to the claim as frozen: with the negative threshold
−1 (expressible through the PRICE_BARRIER_USD environment value, which the
loader accepts unchecked) and price 100, the price-barrier evaluator
returns score −1950 < 0. -/
theorem C6_counterexample :
    ruleScoreOf (priceBarrierAnalyze (-1) (-1) prodPrice100) =
      some (-1950) ∧ (-1950 : ℚ) < 0 := by
  have hth : applicableThreshold (-1) (-1) prodPrice100.marketplace = -1 := by
    simp [applicableThreshold, prodPrice100]
  refine ⟨?_, by norm_num⟩
  rw [priceBarrier_score_eq (-1) (-1) prodPrice100 (by rw [hth]; norm_num), hth]
  norm_num [pbScoreFun, prodPrice100, min_def]

/-- C6 witness: the amended theorem applied to the $49 product with
threshold 39 and to the keyword-volume evaluator at volume 500,
minimum 3000. -/
theorem C6_witness :
    (0 ≤ (850 : ℚ) / 13 ∧ (850 : ℚ) / 13 ≤ 100) ∧
    (0 ≤ (keywordVolumeAnalyze 3000 kwVol500).score ∧
     (keywordVolumeAnalyze 3000 kwVol500).score ≤ 100) := by
  have hth49 : applicableThreshold 39 39 prodPrice49.marketplace = 39 := by
    simp [applicableThreshold, prodPrice49]
  have h2 : ruleScoreOf (priceBarrierAnalyze 39 39 prodPrice49) =
      some (850 / 13) := by
    rw [priceBarrier_score_eq 39 39 prodPrice49 (by rw [hth49]; norm_num), hth49]
    norm_num [pbScoreFun, prodPrice49]
  exact ⟨C6_score_bounds.1 39 39 prodPrice49 (by rw [hth49]; norm_num)
      (850 / 13) (Option.mem_def.mpr h2),
    C6_score_bounds.2.2.1 3000 kwVol500⟩

/-! ## Claim C7 -/

/-- Every rule result the price-barrier analyzer returns carries the same
metadata, with the price-to-threshold ratio guarded to 0 for non-positive
thresholds. -/
theorem priceBarrier_metadata (tu te : ℚ) (p : ProductData) :
    ∀ r ∈ priceBarrierAnalyze tu te p,
      r.metadata =
        [("currency", MetaVal.str (applicableCurrency p.marketplace)),
         ("marketplace", MetaVal.str (marketplaceStr p.marketplace)),
         ("price_to_threshold_ratio", MetaVal.num
           (if 0 < applicableThreshold tu te p.marketplace
            then p.price / applicableThreshold tu te p.marketplace else 0))] := by
  intro r hr
  unfold priceBarrierAnalyze at hr
  dsimp only at hr
  by_cases h1 : p.price < applicableThreshold tu te p.marketplace * 0.7
  · rw [if_pos h1] at hr
    have he := Option.mem_some_iff.mp hr
    subst he
    rfl
  · rw [if_neg h1] at hr
    by_cases h2 : p.price < applicableThreshold tu te p.marketplace
    · rw [if_pos h2] at hr
      by_cases hz : applicableThreshold tu te p.marketplace = 0
      · rw [pydiv, if_pos hz] at hr
        exact absurd hr (by simp)
      · rw [pydiv, if_neg hz, Option.map_some'] at hr
        have he := Option.mem_some_iff.mp hr
        subst he
        rfl
    · rw [if_neg h2] at hr
      by_cases h3 : p.price < applicableThreshold tu te p.marketplace * 1.5
      · rw [if_pos h3] at hr
        by_cases hz : applicableThreshold tu te p.marketplace * 0.5 = 0
        · rw [pydiv, if_pos hz] at hr
          exact absurd hr (by simp)
        · rw [pydiv, if_neg hz, Option.map_some'] at hr
          have he := Option.mem_some_iff.mp hr
          subst he
          rfl
      · rw [if_neg h3] at hr
        by_cases hz : applicableThreshold tu te p.marketplace = 0
        · rw [pydiv, if_pos hz] at hr
          exact absurd hr (by simp)
        · rw [pydiv, if_neg hz, Option.map_some'] at hr
          have he := Option.mem_some_iff.mp hr
          subst he
          rfl

/-- C7 (amended): the price-barrier evaluator raises no exception whenever
the applicable threshold is nonzero — in particular for every negative
threshold — and for a non-positive threshold the price-to-threshold ratio
in the result metadata is 0.  With a threshold of exactly 0 a result is
returned only for negative prices: for price ≥ 0 the top-branch score
expression divides by zero (see the counterexample). -/
theorem C7_no_exception :
    (∀ (tu te : ℚ) (p : ProductData),
      applicableThreshold tu te p.marketplace ≠ 0 →
      ((priceBarrierAnalyze tu te p).isSome = true ∧
       (applicableThreshold tu te p.marketplace ≤ 0 →
        ruleMetaNumOf (priceBarrierAnalyze tu te p)
          "price_to_threshold_ratio" = some 0))) ∧
    (∀ (tu te : ℚ) (p : ProductData),
      applicableThreshold tu te p.marketplace = 0 →
      ((priceBarrierAnalyze tu te p).isSome = true ↔ p.price < 0)) := by
  constructor
  · intro tu te p ht
    have ht2 : applicableThreshold tu te p.marketplace * 0.5 ≠ 0 :=
      mul_ne_zero ht (by norm_num)
    have hsome : (priceBarrierAnalyze tu te p).isSome = true := by
      unfold priceBarrierAnalyze
      dsimp only
      split_ifs
      all_goals first
        | rfl
        | simp [pydiv, ht, ht2]
    refine ⟨hsome, fun hle => ?_⟩
    rcases Option.isSome_iff_exists.mp hsome with ⟨r, hr⟩
    have hmeta := priceBarrier_metadata tu te p r (Option.mem_def.mpr hr)
    have hnl : ¬ 0 < applicableThreshold tu te p.marketplace := not_lt.mpr hle
    simp [ruleMetaNumOf, hr, hmeta, hnl, List.filter]
  · intro tu te p ht
    constructor
    · intro hsome
      by_contra hge
      rw [not_lt] at hge
      unfold priceBarrierAnalyze at hsome
      dsimp only at hsome
      rw [ht] at hsome
      have c1 : ¬ p.price < 0 * 0.7 := by rw [zero_mul]; exact not_lt.mpr hge
      have c2 : ¬ p.price < 0 := not_lt.mpr hge
      have c3 : ¬ p.price < 0 * 1.5 := by rw [zero_mul]; exact not_lt.mpr hge
      rw [if_neg c1, if_neg c2, if_neg c3] at hsome
      simp [pydiv] at hsome
    · intro hneg
      unfold priceBarrierAnalyze
      dsimp only
      rw [ht]
      have c1 : p.price < 0 * 0.7 := by rw [zero_mul]; exact hneg
      rw [if_pos c1]
      rfl

/-- C7 counterexample to the claim as frozen: with threshold 0 and price
$10 the analyzer raises `ZeroDivisionError` (the embedded call returns
`none`) instead of returning a degraded result. -/
theorem C7_counterexample :
    priceBarrierAnalyze 0 0 prodPrice10 = none := by
  unfold priceBarrierAnalyze
  dsimp only
  have hth : applicableThreshold 0 0 prodPrice10.marketplace = 0 := by
    simp [applicableThreshold, prodPrice10]
  rw [hth]
  have c1 : ¬ prodPrice10.price < 0 * 0.7 := by norm_num [prodPrice10]
  have c2 : ¬ prodPrice10.price < 0 := by norm_num [prodPrice10]
  have c3 : ¬ prodPrice10.price < 0 * 1.5 := by norm_num [prodPrice10]
  rw [if_neg c1, if_neg c2, if_neg c3]
  simp [pydiv]

/-- C7 witness: the amended theorem applied at the negative threshold −1
with price $10. -/
theorem C7_witness :
    (priceBarrierAnalyze (-1) (-1) prodPrice10).isSome = true ∧
    ruleMetaNumOf (priceBarrierAnalyze (-1) (-1) prodPrice10)
      "price_to_threshold_ratio" = some 0 := by
  have hth : applicableThreshold (-1) (-1) prodPrice10.marketplace = -1 := by
    simp [applicableThreshold, prodPrice10]
  have h := C7_no_exception.1 (-1) (-1) prodPrice10 (by rw [hth]; norm_num)
  exact ⟨h.1, h.2 (by rw [hth]; norm_num)⟩

/-! ## Claim C1 -/

/-- C1: under the default configuration (green threshold 70, yellow
threshold 40), a RED result from the price-barrier, brand-dominance or
keyword-volume rule forces the final decision to RED regardless of the
overall score; otherwise the decision is GREEN for score ≥ 70, YELLOW for
score ≥ 40, RED below (the triangulation result never acts as a
kill-switch). -/
theorem C1_kill_switch_precedence :
    ∀ (s : ℚ) (p b k tr : AnalysisRule),
      ((p.status = .RED ∨ b.status = .RED ∨ k.status = .RED) →
        determineFinalDecision defaultSettings s p b k tr = .RED) ∧
      (p.status ≠ .RED → b.status ≠ .RED → k.status ≠ .RED →
        determineFinalDecision defaultSettings s p b k tr =
          (if (70 : ℚ) ≤ s then .GREEN
           else if (40 : ℚ) ≤ s then .YELLOW else .RED)) := by
  intro s p b k tr
  have hg : defaultSettings.green_threshold = 70 := by
    norm_num [defaultSettings, mkSettings]
  have hy : defaultSettings.yellow_threshold = 40 := by
    norm_num [defaultSettings, mkSettings]
  constructor
  · unfold determineFinalDecision
    rintro (h | h | h) <;> split_ifs <;> simp_all
  · intro hp hb hk
    unfold determineFinalDecision
    rw [if_neg hp, if_neg hb, if_neg hk, hg, hy]

/-- C1 witness: kill-switch with a RED price result at overall score 85,
and the three decision bands at scores 75 / 55 / 20 with no RED among the
critical results. -/
theorem C1_witness :
    determineFinalDecision defaultSettings 85
      ruleRed0 ruleGreen90 ruleGreen90 ruleGreen90 = .RED ∧
    determineFinalDecision defaultSettings 75
      ruleGreen90 ruleGreen90 ruleGreen90 ruleGreen90 = .GREEN ∧
    determineFinalDecision defaultSettings 55
      ruleGreen90 ruleGreen90 ruleGreen90 ruleGreen90 = .YELLOW ∧
    determineFinalDecision defaultSettings 20
      ruleGreen90 ruleGreen90 ruleGreen90 ruleGreen90 = .RED := by
  have hne : ruleGreen90.status ≠ DecisionStatus.RED := by
    simp [ruleGreen90]
  refine ⟨(C1_kill_switch_precedence 85 ruleRed0 ruleGreen90 ruleGreen90
      ruleGreen90).1 (Or.inl rfl), ?_, ?_, ?_⟩
  · rw [(C1_kill_switch_precedence 75 ruleGreen90 ruleGreen90 ruleGreen90
      ruleGreen90).2 hne hne hne]
    norm_num
  · rw [(C1_kill_switch_precedence 55 ruleGreen90 ruleGreen90 ruleGreen90
      ruleGreen90).2 hne hne hne]
    norm_num
  · rw [(C1_kill_switch_precedence 20 ruleGreen90 ruleGreen90 ruleGreen90
      ruleGreen90).2 hne hne hne]
    norm_num

/-! ## Claim C2 -/

/-- C2 (amended): detection of the platform operator's private-label brand
among the top 3 competitor slots forces score 0 / RED regardless of any
concentration value; otherwise, with `d` the dominance score — the click
concentration when it is available *and nonzero* (amended: the source uses
Python `or`, so a reported concentration of exactly 0 also falls back to
the top brand's share of the top-10 competitor set, else 0) — the bands
are: `d ≥ 0.70` → 10 / RED, `d ≥ dominance_threshold` → 30 / YELLOW,
`d ≥ 0.40` → 60 / YELLOW, else 90 / GREEN. -/
theorem C2_dominance_precedence :
    ∀ (dth : ℚ) (ss : Option SSClient) (p : ProductData) (kw mp : String),
      (amazonDetected (ssCompetitors ss kw mp) = true →
        (brandDominanceAnalyze dth ss p kw mp).score = 0 ∧
        (brandDominanceAnalyze dth ss p kw mp).status = .RED) ∧
      (amazonDetected (ssCompetitors ss kw mp) = false →
        ((0.70 ≤ dominanceScore ss kw mp →
           (brandDominanceAnalyze dth ss p kw mp).score = 10 ∧
           (brandDominanceAnalyze dth ss p kw mp).status = .RED) ∧
         (dominanceScore ss kw mp < 0.70 →
          dth ≤ dominanceScore ss kw mp →
           (brandDominanceAnalyze dth ss p kw mp).score = 30 ∧
           (brandDominanceAnalyze dth ss p kw mp).status = .YELLOW) ∧
         (dominanceScore ss kw mp < 0.70 →
          dominanceScore ss kw mp < dth →
          0.40 ≤ dominanceScore ss kw mp →
           (brandDominanceAnalyze dth ss p kw mp).score = 60 ∧
           (brandDominanceAnalyze dth ss p kw mp).status = .YELLOW) ∧
         (dominanceScore ss kw mp < 0.70 →
          dominanceScore ss kw mp < dth →
          dominanceScore ss kw mp < 0.40 →
           (brandDominanceAnalyze dth ss p kw mp).score = 90 ∧
           (brandDominanceAnalyze dth ss p kw mp).status = .GREEN))) := by
  intro dth ss p kw mp
  unfold dominanceScore
  unfold brandDominanceAnalyze
  dsimp only
  constructor
  · intro hA
    rw [hA]
    simp
  · intro hA
    rw [hA]
    refine ⟨?_, ?_, ?_, ?_⟩
    · intro h70
      rw [if_neg (by simp), if_pos h70]
      exact ⟨rfl, rfl⟩
    · intro h70 hth
      rw [if_neg (by simp), if_neg (not_le.mpr h70), if_pos hth]
      exact ⟨rfl, rfl⟩
    · intro h70 hth h40
      rw [if_neg (by simp), if_neg (not_le.mpr h70), if_neg (not_le.mpr hth),
        if_pos h40]
      exact ⟨rfl, rfl⟩
    · intro h70 hth h40
      rw [if_neg (by simp), if_neg (not_le.mpr h70), if_neg (not_le.mpr hth),
        if_neg (not_le.mpr h40)]
      exact ⟨rfl, rfl⟩

/-- C2 counterexample to the claim as frozen: a collaborator reporting a
click concentration of exactly 0 together with ten competitors of one and
the same (non-Amazon) brand.  The claim's `d` is the available
concentration 0, which demands score 90 / GREEN; the code treats the falsy
0 as missing, falls back to the top-brand share 1.0 and returns
score 10 / RED. -/
theorem C2_zero_concentration_counterexample :
    ssClickConc (some ssZeroConc) "kw" "US" = some 0 ∧
    amazonDetected (ssCompetitors (some ssZeroConc) "kw" "US") = false ∧
    dominanceScore (some ssZeroConc) "kw" "US" = 1 ∧
    (brandDominanceAnalyze 0.5 (some ssZeroConc) prodPrice49 "kw" "US").score
      = 10 ∧
    (brandDominanceAnalyze 0.5 (some ssZeroConc) prodPrice49 "kw" "US").status
      = .RED := by
  have hshare : topBrandShare (ssCompetitors (some ssZeroConc) "kw" "US") =
      some (((10 : ℕ) : ℚ) / ((10 : ℕ) : ℚ)) := by rfl
  have hcc : ssClickConc (some ssZeroConc) "kw" "US" = some 0 := rfl
  have hA : amazonDetected (ssCompetitors (some ssZeroConc) "kw" "US") =
      false := by decide
  have hone : (((10 : ℕ) : ℚ) / ((10 : ℕ) : ℚ)) = 1 := by norm_num
  have hd : dominanceScore (some ssZeroConc) "kw" "US" = 1 := by
    unfold dominanceScore
    rw [hcc, hshare, hone]
    unfold pyOrQ
    norm_num
  refine ⟨hcc, hA, hd, ?_⟩
  unfold brandDominanceAnalyze
  dsimp only
  rw [hA]
  have hd' : pyOrQ (ssClickConc (some ssZeroConc) "kw" "US")
      (topBrandShare (ssCompetitors (some ssZeroConc) "kw" "US")) = 1 := hd
  rw [hd']
  rw [if_neg (by simp), if_pos (by norm_num : (0.70:ℚ) ≤ 1)]
  exact ⟨rfl, rfl⟩

/-- C2 witness: the amended theorem applied to a collaborator whose top
competitor is an Amazon brand (forced 0 / RED), and to one reporting a
0.55 concentration against the default 0.50 threshold (30 / YELLOW). -/
theorem C2_witness :
    ((brandDominanceAnalyze 0.5 (some ssAmazonTop) prodPrice49 "kw" "US").score
        = 0 ∧
     (brandDominanceAnalyze 0.5 (some ssAmazonTop) prodPrice49 "kw" "US").status
        = .RED) ∧
    ((brandDominanceAnalyze 0.5 (some ssConc55) prodPrice49 "kw" "US").score
        = 30 ∧
     (brandDominanceAnalyze 0.5 (some ssConc55) prodPrice49 "kw" "US").status
        = .YELLOW) := by
  have hd : dominanceScore (some ssConc55) "kw" "US" = 0.55 := by
    unfold dominanceScore
    have hcc : ssClickConc (some ssConc55) "kw" "US" = some 0.55 := rfl
    have hsh : topBrandShare (ssCompetitors (some ssConc55) "kw" "US") =
        none := rfl
    rw [hcc, hsh]
    unfold pyOrQ
    norm_num
  constructor
  · exact (C2_dominance_precedence 0.5 (some ssAmazonTop) prodPrice49
      "kw" "US").1 (by decide)
  · exact ((C2_dominance_precedence 0.5 (some ssConc55) prodPrice49
      "kw" "US").2 (by decide)).2.1
      (by rw [hd]; norm_num) (by rw [hd]; norm_num)

/-! ## Claim C4 -/

/-- A substring of the right part of an append is a substring of the whole
character list. -/
theorem containsChars_append_right (n l2 : List Char) (l1 : List Char)
    (h : containsChars n l2 = true) :
    containsChars n (l1 ++ l2) = true := by
  induction l1 with
  | nil => simpa using h
  | cons c rest ih =>
    rw [List.cons_append, containsChars]
    simp [ih]

/-- A substring of the right part of an append is a substring of the whole
string. -/
theorem containsSub_append_right (n a b : String)
    (h : containsSub n b = true) :
    containsSub n (a ++ b) = true := by
  unfold containsSub at *
  simp only [String.toList, String.data_append]
  exact containsChars_append_right _ _ _ h

/-- C4: for every keyword with exact volume `v` and positive configured
minimum `m`, the demand-volume evaluator returns 0 / RED when `v < 0.3m`,
`(v/m)·50` / YELLOW when `0.3m ≤ v < m`, `50 + ((v−m)/m)·30` / GREEN when
`m ≤ v < 2m`, `80 + min(15, ((v−2m)/(3m))·15)` / GREEN when `2m ≤ v < 5m`,
and exactly 90 / GREEN when `v ≥ 5m`, with the reason carrying the
entrenched-competition caveat ("... often have established players"),
which changes neither status nor score. -/
theorem C4_keyword_volume_curve :
    ∀ (m : ℤ) (kd : KeywordData), 0 < m →
      (((kd.exact_search_volume : ℚ) < 0.3 * (m : ℚ) →
         (keywordVolumeAnalyze m kd).score = 0 ∧
         (keywordVolumeAnalyze m kd).status = .RED) ∧
       (0.3 * (m : ℚ) ≤ (kd.exact_search_volume : ℚ) →
        (kd.exact_search_volume : ℚ) < (m : ℚ) →
         (keywordVolumeAnalyze m kd).score =
           (kd.exact_search_volume : ℚ) / (m : ℚ) * 50 ∧
         (keywordVolumeAnalyze m kd).status = .YELLOW) ∧
       ((m : ℚ) ≤ (kd.exact_search_volume : ℚ) →
        (kd.exact_search_volume : ℚ) < 2 * (m : ℚ) →
         (keywordVolumeAnalyze m kd).score =
           50 + ((kd.exact_search_volume : ℚ) - (m : ℚ)) / (m : ℚ) * 30 ∧
         (keywordVolumeAnalyze m kd).status = .GREEN) ∧
       (2 * (m : ℚ) ≤ (kd.exact_search_volume : ℚ) →
        (kd.exact_search_volume : ℚ) < 5 * (m : ℚ) →
         (keywordVolumeAnalyze m kd).score =
           80 + min 15
             (((kd.exact_search_volume : ℚ) - 2 * (m : ℚ)) / (3 * (m : ℚ)) * 15) ∧
         (keywordVolumeAnalyze m kd).status = .GREEN) ∧
       (5 * (m : ℚ) ≤ (kd.exact_search_volume : ℚ) →
         (keywordVolumeAnalyze m kd).score = 90 ∧
         (keywordVolumeAnalyze m kd).status = .GREEN ∧
         containsSub "often have established players"
           (keywordVolumeAnalyze m kd).reason = true)) := by
  intro m kd hm0
  have hm : (0 : ℚ) < (m : ℚ) := by exact_mod_cast hm0
  unfold keywordVolumeAnalyze
  dsimp only
  refine ⟨?_, ?_, ?_, ?_, ?_⟩
  · intro h1
    rw [if_pos (by linarith : (kd.exact_search_volume : ℚ) < (m : ℚ) * 0.3)]
    exact ⟨rfl, rfl⟩
  · intro h1 h2
    rw [if_neg (by push_neg; linarith :
          ¬ (kd.exact_search_volume : ℚ) < (m : ℚ) * 0.3),
        if_pos h2]
    exact ⟨rfl, rfl⟩
  · intro h1 h2
    rw [if_neg (by push_neg; linarith :
          ¬ (kd.exact_search_volume : ℚ) < (m : ℚ) * 0.3),
        if_neg (not_lt.mpr h1),
        if_pos (by linarith : (kd.exact_search_volume : ℚ) < (m : ℚ) * 2)]
    exact ⟨rfl, rfl⟩
  · intro h1 h2
    rw [if_neg (by push_neg; linarith :
          ¬ (kd.exact_search_volume : ℚ) < (m : ℚ) * 0.3),
        if_neg (by push_neg; linarith :
          ¬ (kd.exact_search_volume : ℚ) < (m : ℚ)),
        if_neg (by push_neg; linarith :
          ¬ (kd.exact_search_volume : ℚ) < (m : ℚ) * 2),
        if_pos (by linarith : (kd.exact_search_volume : ℚ) < (m : ℚ) * 5)]
    refine ⟨?_, rfl⟩
    rw [mul_comm (m : ℚ) 2, mul_comm (m : ℚ) 3]
  · intro h1
    rw [if_neg (by push_neg; linarith :
          ¬ (kd.exact_search_volume : ℚ) < (m : ℚ) * 0.3),
        if_neg (by push_neg; linarith :
          ¬ (kd.exact_search_volume : ℚ) < (m : ℚ)),
        if_neg (by push_neg; linarith :
          ¬ (kd.exact_search_volume : ℚ) < (m : ℚ) * 2),
        if_neg (by push_neg; linarith :
          ¬ (kd.exact_search_volume : ℚ) < (m : ℚ) * 5)]
    refine ⟨rfl, rfl, ?_⟩
    exact containsSub_append_right _ _ _ (by decide)

/-- C4 witness: the theorem applied at minimum volume 3000 with exact
volume 500 (concrete scenario 3: `500 < 0.3·3000 = 900` → 0 / RED) and
with exact volume 16000 (very-high-volume band: 90 / GREEN plus the
caveat). -/
theorem C4_witness :
    ((keywordVolumeAnalyze 3000 kwVol500).score = 0 ∧
     (keywordVolumeAnalyze 3000 kwVol500).status = .RED) ∧
    ((keywordVolumeAnalyze 3000 kwVol16000).score = 90 ∧
     (keywordVolumeAnalyze 3000 kwVol16000).status = .GREEN ∧
     containsSub "often have established players"
       (keywordVolumeAnalyze 3000 kwVol16000).reason = true) :=
  ⟨(C4_keyword_volume_curve 3000 kwVol500 (by norm_num)).1
      (by norm_num [kwVol500]),
   (C4_keyword_volume_curve 3000 kwVol16000 (by norm_num)).2.2.2.2
      (by norm_num [kwVol16000])⟩

/-! ## Claim C5 -/

/-- C5: per triangulated quantity the confidence contribution is: nothing
for 0 estimates, 50 for a single estimate (single-source penalty), and for
≥ 2 estimates 100 / 70 / 30 according to whether the variance
`(max − min)/mean` is within the threshold, within twice the threshold, or
beyond; the overall score is the mean of the collected contributions
(0 when there are none) and the status is GREEN at ≥ 80, YELLOW at ≥ 60,
RED below. -/
theorem C5_triangulation :
    ∀ (vt : ℚ) (h10 : Option H10Client) (ss : Option SSClient)
      (p : ProductData) (kw mp : String),
      (∀ t : TriagData,
        (t.source_count = 0 → quantConf vt t = none) ∧
        (t.source_count = 1 → quantConf vt t = some 50) ∧
        (2 ≤ t.source_count → quantConf vt t =
          some (if t.variance_pct ≤ vt then 100
                else if t.variance_pct ≤ 2 * vt then 70 else 30))) ∧
      (∀ (v : ℚ) (rest : List ℚ),
        0 < (triangulateVals (v :: rest)).mean →
        (triangulateVals (v :: rest)).variance_pct =
          (listMax v rest - listMin v rest) /
            (triangulateVals (v :: rest)).mean) ∧
      ((triangulationAnalyze vt h10 ss p kw mp).score =
        listMean ((quantConf vt (triangulateVals (salesEstimates p))).toList
          ++ (quantConf vt
                (triangulateVals (volumeEstimates h10 ss kw mp))).toList)) ∧
      listMean ([] : List ℚ) = 0 ∧
      ((80 ≤ (triangulationAnalyze vt h10 ss p kw mp).score →
         (triangulationAnalyze vt h10 ss p kw mp).status = .GREEN) ∧
       ((triangulationAnalyze vt h10 ss p kw mp).score < 80 →
        60 ≤ (triangulationAnalyze vt h10 ss p kw mp).score →
         (triangulationAnalyze vt h10 ss p kw mp).status = .YELLOW) ∧
       ((triangulationAnalyze vt h10 ss p kw mp).score < 60 →
         (triangulationAnalyze vt h10 ss p kw mp).status = .RED)) := by
  intro vt h10 ss p kw mp
  refine ⟨?_, ?_, ?_, by simp [listMean], ?_, ?_, ?_⟩
  · intro t
    refine ⟨fun h0 => ?_, fun h1 => ?_, fun h2 => ?_⟩
    · unfold quantConf
      rw [if_neg (by omega), if_neg (by omega)]
    · unfold quantConf
      rw [if_neg (by omega), if_pos h1]
    · unfold quantConf
      rw [if_pos h2, mul_comm (2 : ℚ) vt]
  · intro v rest hmean
    unfold triangulateVals at hmean ⊢
    dsimp only at hmean ⊢
    rw [if_pos hmean]
  · unfold triangulationAnalyze
    dsimp only
  · intro h80
    unfold triangulationAnalyze at h80 ⊢
    dsimp only at h80 ⊢
    rw [if_pos h80]
  · intro h80 h60
    unfold triangulationAnalyze at h80 h60 ⊢
    dsimp only at h80 h60 ⊢
    rw [if_neg (not_le.mpr h80), if_pos h60]
  · intro h60
    unfold triangulationAnalyze at h60 ⊢
    dsimp only at h60 ⊢
    rw [if_neg (by
      intro hc
      exact absurd h60 (not_lt.mpr (by linarith))), if_neg (not_le.mpr h60)]

/-- C5 witness: concrete scenario 4 — two sales estimates 1000 and 1100
under the default 0.30 variance threshold give variance 2/21 and a
contribution of 100; with no keyword-volume sources the overall score is
100 and the status GREEN. -/
theorem C5_witness :
    quantConf 0.30 (triangulateVals (salesEstimates prodTwoSales)) =
      some 100 ∧
    (triangulationAnalyze 0.30 none none prodTwoSales "kw" "US").score =
      100 ∧
    (triangulationAnalyze 0.30 none none prodTwoSales "kw" "US").status =
      .GREEN := by
  have h := C5_triangulation 0.30 none none prodTwoSales "kw" "US"
  have hse : salesEstimates prodTwoSales =
      [((1000 : ℤ) : ℚ), ((1100 : ℤ) : ℚ)] := rfl
  have hcount :
      (triangulateVals (salesEstimates prodTwoSales)).source_count = 2 := rfl
  have hmean : (triangulateVals (salesEstimates prodTwoSales)).mean = 1050 := by
    rw [hse]
    unfold triangulateVals
    try dsimp only
    push_cast
    norm_num
  have hvar :
      (triangulateVals (salesEstimates prodTwoSales)).variance_pct = 2 / 21 := by
    rw [hse] at hmean ⊢
    rw [(h.2.1 ((1000 : ℤ) : ℚ) [((1100 : ℤ) : ℚ)] (by rw [hmean]; norm_num))]
    rw [hmean]
    unfold listMax listMin
    simp only [List.foldl_cons, List.foldl_nil]
    push_cast
    rw [max_eq_right (by norm_num), min_eq_left (by norm_num)]
    norm_num
  have hconf : quantConf 0.30 (triangulateVals (salesEstimates prodTwoSales)) =
      some 100 := by
    rw [(h.1 (triangulateVals (salesEstimates prodTwoSales))).2.2
      (by rw [hcount])]
    rw [hvar]
    norm_num
  have hvol : quantConf 0.30
      (triangulateVals (volumeEstimates none none "kw" "US")) = none := rfl
  have hscore :
      (triangulationAnalyze 0.30 none none prodTwoSales "kw" "US").score =
        100 := by
    rw [h.2.2.1, hconf, hvol]
    unfold listMean
    norm_num
  exact ⟨hconf, hscore, h.2.2.2.2.1 (by rw [hscore]; norm_num)⟩

/-! ## Claim C9 -/

/-- C9 (amended): configuration loading performs no structural validation.
Every load succeeds (`Settings.__init__` has no failure path for numeric
environment values); each currency zone's price floor always receives the
default 39.0 when unset, so a "missing floor" cannot occur; a negative
weight and non-monotonic decision bands (yellow 80 ≥ green 70) are
accepted, and the invalid weight surfaces only through the weighted score
computed during an evaluation (27 instead of the 72 produced by the
default weights on the same inputs). -/
theorem C9_config_not_validated :
    (∀ env : Env, loadSettings env = Except.ok (mkSettings env)) ∧
    (∀ env : Env,
      (mkSettings env).price_barrier_usd = env.price_barrier_usd.getD 39 ∧
      (mkSettings env).price_barrier_eur = env.price_barrier_eur.getD 39) ∧
    (mkSettings badEnv).weight_price_barrier = -0.25 ∧
    (mkSettings badEnv).weight_price_barrier < 0 ∧
    (mkSettings badEnv).yellow_threshold = 80 ∧
    (mkSettings badEnv).green_threshold = 70 ∧
    calculateWeightedScore (mkSettings badEnv)
      ruleGreen90 ruleGreen90 ruleGreen90 ruleGreen90 none none = 27 ∧
    calculateWeightedScore defaultSettings
      ruleGreen90 ruleGreen90 ruleGreen90 ruleGreen90 none none = 72 := by
  refine ⟨fun env => rfl, fun env => ⟨rfl, rfl⟩, by norm_num [mkSettings, badEnv],
    by norm_num [mkSettings, badEnv], by norm_num [mkSettings, badEnv],
    by norm_num [mkSettings, badEnv], ?_, ?_⟩
  · unfold calculateWeightedScore
    norm_num [mkSettings, badEnv, ruleGreen90, min_def, max_def]
  · unfold calculateWeightedScore
    norm_num [defaultSettings, mkSettings, ruleGreen90, min_def, max_def]

/-- C9 counterexample to the claim as frozen: the structurally invalid
configuration `badEnv` (negative price-barrier weight, yellow band 80
above green band 70) does not cause any error at load time — the loader
returns it unchanged — and an evaluation's weighted score is computed from
it, so the invalid values surface per evaluation rather than at load. -/
theorem C9_counterexample :
    loadSettings badEnv = Except.ok (mkSettings badEnv) ∧
    (mkSettings badEnv).weight_price_barrier < 0 ∧
    (mkSettings badEnv).green_threshold ≤ (mkSettings badEnv).yellow_threshold ∧
    calculateWeightedScore (mkSettings badEnv)
      ruleGreen90 ruleGreen90 ruleGreen90 ruleGreen90 none none = 27 := by
  refine ⟨rfl, by norm_num [mkSettings, badEnv], by norm_num [mkSettings, badEnv], ?_⟩
  unfold calculateWeightedScore
  norm_num [mkSettings, badEnv, ruleGreen90, min_def, max_def]

/-! ## Claim C10 -/

/-- C10: the click-concentration helper of the scoring engine returns
`None` on every path — without a SellerSprite collaborator, when the
concentration lookup is unknown, and also when a concentration value is
returned — so the optional click-concentration slot of the assessment is
never populated. -/
theorem C10_click_concentration_always_none :
    ∀ (ss : Option SSClient) (kw mp : String),
      analyzeClickConcentration ss kw mp = none := by
  intro ss kw mp
  unfold analyzeClickConcentration
  rcases ss with _ | c
  · rfl
  · dsimp only
    rcases c.get_click_concentration kw mp with _ | q <;> rfl

end Aydn
